import Mathlib

/-!
Verification of the Uganda income-tax MVP (TaxIntellilytics).

Shallow embedding of the tax-determination core of the repository:
the progressive-bracket and flat-rate calculators, the reduction chain,
the ledger classifier, and the URA return-schema validator from
src/mvp_streamlit_app.py, together with the module-level computation
pipeline of src/uganda_tax_full_mvp.py.

Python floats are modelled as rationals; the two-decimal rounding of
the source (round(x, 2)) is modelled as round-half-up at the second
decimal place, which agrees with the source everywhere except exact
half-cent ties (never exercised by the properties below) and is
monotone and exact on whole numbers like the source rounding.
-/

/-- Model of round(x, 2) from the source: round to two decimal places
(half-up at the second decimal). -/
def round2 (x : ℚ) : ℚ := ((⌊x * 100 + 1/2⌋ : ℤ) : ℚ) / 100

/-- Evaluation lemma: round2 is the identity on whole numbers. -/
theorem round2_int (x : ℚ) (n : ℤ) (h : x = (n : ℚ)) : round2 x = x := by
  subst h
  unfold round2
  have hf : ⌊(n : ℚ) * 100 + 1/2⌋ = 100 * n := by
    rw [Int.floor_eq_iff]
    constructor
    · push_cast; linarith
    · push_cast; linarith
  rw [hf]
  push_cast
  ring

/-- round2 is monotone. -/
theorem round2_mono {x y : ℚ} (h : x ≤ y) : round2 x ≤ round2 y := by
  unfold round2
  have hfl : ⌊x * 100 + 1/2⌋ ≤ ⌊y * 100 + 1/2⌋ := Int.floor_le_floor (by linarith)
  have h2 : ((⌊x * 100 + 1/2⌋ : ℤ) : ℚ) ≤ ((⌊y * 100 + 1/2⌋ : ℤ) : ℚ) := by exact_mod_cast hfl
  linarith

/-- round2 preserves nonnegativity. -/
theorem round2_nonneg {x : ℚ} (h : 0 ≤ x) : 0 ≤ round2 x := by
  unfold round2
  have hfl : (0 : ℤ) ≤ ⌊x * 100 + 1/2⌋ := Int.floor_nonneg.mpr (by linarith)
  have h2 : ((0 : ℤ) : ℚ) ≤ ((⌊x * 100 + 1/2⌋ : ℤ) : ℚ) := by exact_mod_cast hfl
  have : (0:ℚ) ≤ ((⌊x * 100 + 1/2⌋ : ℤ) : ℚ) := by exact_mod_cast h2
  positivity

/-- One row of the progressive rate table: the dicts
with keys threshold, rate, fixed of mvp_streamlit_app.py. -/
structure BracketTier where
  threshold : ℚ
  rate : ℚ
  fixed : ℚ
deriving DecidableEq, Repr

/-- The upper end of the slice taxed by the current tier: taxable_income
if the current tier is the last one, min(taxable_income, next threshold)
otherwise (line 148 of mvp_streamlit_app.py, where the argument list is
the remaining tiers after the current one). -/
def upperBound (T : ℚ) : List BracketTier → ℚ
  | [] => T
  | b :: _ => min T b.threshold

/-- Candidate tax value computed for one tier (lines 149-150 of
mvp_streamlit_app.py): fixed + max(0, upper - threshold) * rate. -/
def tierValue (b : BracketTier) (upper : ℚ) : ℚ :=
  b.fixed + max 0 (upper - b.threshold) * b.rate

/-- The for-loop of compute_individual_tax_brackets (lines 141-152):
walk the tiers in the supplied order; while taxable_income > threshold
overwrite the running tax with the tier candidate value, and stop at the
first tier whose threshold is not exceeded. -/
def bracketLoop (T : ℚ) : List BracketTier → ℚ → ℚ
  | [], tax => tax
  | b :: rest, tax =>
    if b.threshold < T then bracketLoop T rest (tierValue b (upperBound T rest)) else tax

/-- compute_individual_tax_brackets (mvp_streamlit_app.py lines 137-153):
0 for nonpositive income, otherwise the loop result floored at 0 and
rounded to two decimals. -/
def compute_individual_tax_brackets (T : ℚ) (brackets : List BracketTier) : ℚ :=
  if T ≤ 0 then 0 else round2 (max 0 (bracketLoop T brackets 0))

/-- default_brackets (mvp_streamlit_app.py lines 221-227). -/
def default_brackets : List BracketTier :=
  [⟨0, 0, 0⟩, ⟨2820000, 1/10, 0⟩, ⟨4020000, 2/10, 120000⟩,
   ⟨4920000, 3/10, 360000⟩, ⟨10000000, 4/10, 1830000⟩]

/-- compute_company_tax (mvp_streamlit_app.py lines 155-158). -/
def compute_company_tax (taxable_income : ℚ) (company_rate : ℚ) : ℚ :=
  if taxable_income ≤ 0 then 0 else round2 (taxable_income * company_rate)

/-- apply_credits_and_rebates (mvp_streamlit_app.py lines 160-161). -/
def apply_credits_and_rebates (gross_tax credits_wht credits_foreign rebates : ℚ) : ℚ :=
  max 0 (gross_tax - credits_wht - credits_foreign - rebates)

/-- pbit (mvp_streamlit_app.py line 320). -/
def pbit (revenue cogs opex other_income other_expenses : ℚ) : ℚ :=
  (revenue + other_income) - (cogs + opex + other_expenses)

/-- adjusted_profit (mvp_streamlit_app.py line 375). -/
def adjusted_profit (pb total_addbacks : ℚ) : ℚ := pb + total_addbacks

/-- chargeable_income (mvp_streamlit_app.py line 418). -/
def chargeable_income (ap total_allowables : ℚ) : ℚ := max 0 (ap - total_allowables)

/-- adjusted_taxable_income (mvp_streamlit_app.py line 435). -/
def adjusted_taxable_income (ci capital_allowances exemptions : ℚ) : ℚ :=
  max 0 (ci - capital_allowances - exemptions)

/-- net_tax_after_provisional (mvp_streamlit_app.py line 442). -/
def net_tax_after_provisional (net_tax_payable provisional_tax_paid : ℚ) : ℚ :=
  max 0 (net_tax_payable - provisional_tax_paid)

namespace FullMvp

/-- adjusted_profit (uganda_tax_full_mvp.py line 88): pbit + addbacks,
not floored. -/
def adjusted_profit (pb addbacks : ℚ) : ℚ := pb + addbacks

/-- chargeable_income (uganda_tax_full_mvp.py line 89): adjusted profit
minus allowables, with no floor at zero. -/
def chargeable_income (ap allowables : ℚ) : ℚ := ap - allowables

/-- income_tax (uganda_tax_full_mvp.py line 91): flat 30 percent of
chargeable income, rounded to two decimals. -/
def income_tax (ci : ℚ) : ℚ := round2 (ci * (30/100))

/-- final_tax (uganda_tax_full_mvp.py line 92): income tax minus
provisional and withholding taxes, with no floor (negative values are
reported as a refund by the app). -/
def final_tax (it provisional_taxes_paid withholding_taxes : ℚ) : ℚ :=
  it - provisional_taxes_paid - withholding_taxes

end FullMvp

/-- C1 counterexample: with pbit = 0, no addbacks and allowables = 100
(all legal inputs: every entry field of uganda_tax_full_mvp.py has
min_value 0), the module-level pipeline of uganda_tax_full_mvp.py
produces a negative chargeable income (-100) and a negative final tax,
so the floor invariant does not hold for every reduction pipeline cited
by the claim. -/
theorem C1_counterexample :
    FullMvp.chargeable_income (FullMvp.adjusted_profit 0 0) 100 < 0 ∧
    FullMvp.final_tax
      (FullMvp.income_tax (FullMvp.chargeable_income (FullMvp.adjusted_profit 0 0) 100)) 0 0 < 0 := by
  have hci : FullMvp.chargeable_income (FullMvp.adjusted_profit 0 0) 100 = -100 := by
    norm_num [FullMvp.chargeable_income, FullMvp.adjusted_profit]
  constructor
  · rw [hci]; norm_num
  · rw [hci, FullMvp.final_tax, FullMvp.income_tax]
    rw [show (-100 : ℚ) * (30/100) = ((-30 : ℤ) : ℚ) by norm_num]
    rw [round2_int _ (-30) rfl]
    norm_num

/-- C1 (amended): in the mvp_streamlit_app.py reduction pipeline, every
stage is floored at zero, so chargeable income, adjusted taxable income,
net tax payable and net tax after provisional payments are nonnegative
for all inputs, however large the subtracted quantities are. -/
theorem C1_floor_invariant_streamlit
    (revenue cogs opex other_income other_expenses total_addbacks total_allowables
      capital_allowances exemptions gross_tax credits_wht credits_foreign rebates
      provisional_tax_paid : ℚ) :
    0 ≤ chargeable_income
        (adjusted_profit (pbit revenue cogs opex other_income other_expenses) total_addbacks)
        total_allowables ∧
    0 ≤ adjusted_taxable_income
        (chargeable_income
          (adjusted_profit (pbit revenue cogs opex other_income other_expenses) total_addbacks)
          total_allowables) capital_allowances exemptions ∧
    0 ≤ apply_credits_and_rebates gross_tax credits_wht credits_foreign rebates ∧
    0 ≤ net_tax_after_provisional
        (apply_credits_and_rebates gross_tax credits_wht credits_foreign rebates)
        provisional_tax_paid :=
  ⟨le_max_left 0 _, le_max_left 0 _, le_max_left 0 _, le_max_left 0 _⟩

/-- C3: income exactly equal to the threshold of the next tier is taxed
by the lower tier (strict comparison): in general the scan of a table
whose second tier threshold equals the income returns the lower tier
formula, and on the default Uganda table an income of exactly 4020000
yields a gross tax of 120000. -/
theorem C3_exact_threshold_tie_break (a b : BracketTier) (rest : List BracketTier)
    (hab : a.threshold < b.threshold) (hpos : 0 < b.threshold) :
    compute_individual_tax_brackets b.threshold (a :: b :: rest)
      = round2 (max 0 (a.fixed + (b.threshold - a.threshold) * a.rate)) ∧
    compute_individual_tax_brackets 4020000 default_brackets = 120000 := by
  constructor
  · have h1 : bracketLoop b.threshold (a :: b :: rest) 0
        = a.fixed + (b.threshold - a.threshold) * a.rate := by
      rw [bracketLoop, if_pos hab, upperBound, min_self, bracketLoop,
        if_neg (lt_irrefl b.threshold), tierValue,
        max_eq_right (sub_nonneg.mpr hab.le)]
    rw [compute_individual_tax_brackets, if_neg (not_le.mpr hpos), h1]
  · have h : bracketLoop 4020000 default_brackets 0 = 120000 := by
      norm_num [default_brackets, bracketLoop, tierValue, upperBound, min_def, max_def]
    rw [compute_individual_tax_brackets, if_neg (by norm_num), h,
      max_eq_right (by norm_num : (0:ℚ) ≤ 120000), round2_int _ 120000 (by norm_num)]

/-- C3 witness: the tie-break theorem applied to the concrete 10 and 20
percent tiers of the default Uganda table. -/
theorem C3_exact_threshold_tie_break_witness :
    compute_individual_tax_brackets 4020000
        [⟨2820000, 1/10, 0⟩, ⟨4020000, 2/10, 120000⟩]
      = round2 (max 0 (0 + (4020000 - 2820000) * (1/10))) :=
  (C3_exact_threshold_tie_break ⟨2820000, 1/10, 0⟩ ⟨4020000, 2/10, 120000⟩ []
    (by norm_num) (by norm_num)).1

/-- C4: on the default Uganda tier table, taxable income 5000000 falls
in the 30 percent bracket and the gross tax is
360000 + 0.30 * (5000000 - 4920000) = 384000.00. -/
theorem C4_progressive_boundary :
    compute_individual_tax_brackets 5000000 default_brackets = 384000 := by
  have h : bracketLoop 5000000 default_brackets 0 = 384000 := by
    norm_num [default_brackets, bracketLoop, tierValue, upperBound, min_def, max_def]
  rw [compute_individual_tax_brackets, if_neg (by norm_num), h,
    max_eq_right (by norm_num : (0:ℚ) ≤ 384000), round2_int _ 384000 (by norm_num)]

/-- C6: company tax is exactly round2(T * rate) for positive taxable
income and 0 for nonpositive taxable income; in particular a taxable
income of 100000000 at rate 0.30 gives exactly 30000000.00. -/
theorem C6_flat_rate_exactness (T rate : ℚ) (hr : 0 ≤ rate ∧ rate ≤ 1) :
    (0 < T → compute_company_tax T rate = round2 (T * rate)) ∧
    (T ≤ 0 → compute_company_tax T rate = 0) ∧
    compute_company_tax 100000000 (30/100) = 30000000 := by
  refine ⟨fun h => if_neg (not_le.mpr h), fun h => if_pos h, ?_⟩
  rw [compute_company_tax, if_neg (by norm_num)]
  rw [show (100000000 : ℚ) * (30/100) = ((30000000 : ℤ) : ℚ) by norm_num]
  rw [round2_int _ 30000000 rfl]
  norm_num

/-- C6 witness: the flat-rate theorem applied at concrete positive and
nonpositive incomes with rate one half. -/
theorem C6_flat_rate_exactness_witness :
    compute_company_tax 5 (1/2) = round2 (5 * (1/2)) ∧ compute_company_tax (-3) (1/2) = 0 :=
  ⟨(C6_flat_rate_exactness 5 (1/2) ⟨by norm_num, by norm_num⟩).1 (by norm_num),
   (C6_flat_rate_exactness (-3) (1/2) ⟨by norm_num, by norm_num⟩).2.1 (by norm_num)⟩

/-- C7: the credits and rebates step subtracts the three amounts as one
flat sum (grouping and order of the three credits is immaterial) and
floors at zero, silently discarding any excess; on the documented
example (1000000 gross, 600000 + 300000 + 200000 credits) the result
is 0. -/
theorem C7_reduction_chain (gross_tax credits_wht credits_foreign rebates : ℚ)
    (hg : 0 ≤ gross_tax) (hw : 0 ≤ credits_wht) (hf : 0 ≤ credits_foreign)
    (hr : 0 ≤ rebates) :
    apply_credits_and_rebates gross_tax credits_wht credits_foreign rebates
      = max 0 (gross_tax - (credits_wht + credits_foreign + rebates)) ∧
    apply_credits_and_rebates gross_tax credits_wht credits_foreign rebates
      = apply_credits_and_rebates gross_tax rebates credits_foreign credits_wht ∧
    apply_credits_and_rebates 1000000 600000 300000 200000 = 0 := by
  refine ⟨?_, ?_, ?_⟩
  · rw [apply_credits_and_rebates]; congr 1; ring
  · rw [apply_credits_and_rebates, apply_credits_and_rebates]; congr 1; ring
  · rw [apply_credits_and_rebates]
    rw [show (1000000 : ℚ) - 600000 - 300000 - 200000 = -100000 by norm_num]
    rw [max_eq_left (by norm_num)]

/-- C7 witness: the reduction-chain theorem applied at the documented
concrete credits. -/
theorem C7_reduction_chain_witness :
    apply_credits_and_rebates 1000000 600000 300000 200000 = 0 :=
  (C7_reduction_chain 1000000 600000 300000 200000
    (by norm_num) (by norm_num) (by norm_num) (by norm_num)).2.2

/-- C10: if no tier threshold lies strictly below the taxable income
(in particular for the empty tier table) the progressive calculator
returns 0 rather than failing. -/
theorem C10_no_applicable_tier (T : ℚ) (bs : List BracketTier)
    (h : ∀ b ∈ bs, T ≤ b.threshold) :
    compute_individual_tax_brackets T bs = 0 := by
  by_cases hT : T ≤ 0
  · rw [compute_individual_tax_brackets, if_pos hT]
  · rw [compute_individual_tax_brackets, if_neg hT]
    have hloop : bracketLoop T bs 0 = 0 := by
      cases bs with
      | nil => rfl
      | cons b rest =>
        rw [bracketLoop, if_neg (not_lt.mpr (h b (List.mem_cons_self b rest)))]
    rw [hloop, max_self, round2_int _ 0 (by norm_num)]

/-- C10 witness: the theorem applied to the empty table and to a table
whose only threshold is above the income. -/
theorem C10_no_applicable_tier_witness :
    compute_individual_tax_brackets 7 [] = 0 ∧
    compute_individual_tax_brackets 5 [⟨10, 1/2, 3⟩] = 0 :=
  ⟨C10_no_applicable_tier 7 [] (by intro b hb; cases hb),
   C10_no_applicable_tier 5 [⟨10, 1/2, 3⟩] (by
    intro b hb
    rcases List.mem_singleton.mp hb with rfl
    norm_num)⟩

/-- The structural contract of the data model between two consecutive
tiers: strictly ascending thresholds, and the fixed base of the upper
tier is the cumulative tax at its threshold computed from the lower
tier. -/
def tierStep (a b : BracketTier) : Prop :=
  a.threshold < b.threshold ∧ b.fixed = a.fixed + (b.threshold - a.threshold) * a.rate

/-- The tier candidate value is monotone in its upper cut when the rate
is nonnegative. -/
theorem tierValue_mono (b : BracketTier) (hr : 0 ≤ b.rate) {u1 u2 : ℚ} (h : u1 ≤ u2) :
    tierValue b u1 ≤ tierValue b u2 :=
  add_le_add_left
    (mul_le_mul_of_nonneg_right (max_le_max le_rfl (sub_le_sub_right h _)) hr) _

/-- The tier candidate value is at least the fixed base when the rate is
nonnegative. -/
theorem le_tierValue (b : BracketTier) (hr : 0 ≤ b.rate) (u : ℚ) :
    b.fixed ≤ tierValue b u :=
  le_add_of_nonneg_right (mul_nonneg (le_max_left 0 _) hr)

/-- Lower bound on the loop result: once the scan has processed a tier
b0, the final result is at least the fixed base of b0, provided the
remaining tiers satisfy the structural contract and rates are
nonnegative. -/
theorem bracketLoop_ge_fixed (bs : List BracketTier) :
    ∀ (b0 : BracketTier) (T : ℚ), List.Chain tierStep b0 bs → 0 ≤ b0.rate →
      (∀ b ∈ bs, 0 ≤ b.rate) →
      b0.fixed ≤ bracketLoop T bs (tierValue b0 (upperBound T bs)) := by
  induction bs with
  | nil =>
    intro b0 T _ hr0 _
    simpa [bracketLoop, upperBound] using le_tierValue b0 hr0 T
  | cons b1 rest ih =>
    intro b0 T hchain hr0 hrs
    cases hchain with
    | cons hstep htail =>
      rw [upperBound, bracketLoop]
      by_cases h : b1.threshold < T
      · rw [if_pos h]
        have hr1 : 0 ≤ b1.rate := hrs b1 (List.mem_cons_self b1 rest)
        have h01 : b0.fixed ≤ b1.fixed := by
          rcases hstep with ⟨hlt, heq⟩
          rw [heq]
          nlinarith [mul_nonneg (sub_nonneg.mpr hlt.le) hr0]
        exact h01.trans (ih b1 T htail hr1 (fun b hb => hrs b (List.mem_cons_of_mem b1 hb)))
      · rw [if_neg h]
        exact le_tierValue b0 hr0 _

/-- Monotonicity of the loop result in the taxable income, once a first
tier b0 below both incomes has been processed. -/
theorem bracketLoop_mono (bs : List BracketTier) :
    ∀ (b0 : BracketTier) (T1 T2 : ℚ), List.Chain tierStep b0 bs → 0 ≤ b0.rate →
      (∀ b ∈ bs, 0 ≤ b.rate) → b0.threshold < T1 → T1 ≤ T2 →
      bracketLoop T1 bs (tierValue b0 (upperBound T1 bs))
        ≤ bracketLoop T2 bs (tierValue b0 (upperBound T2 bs)) := by
  induction bs with
  | nil =>
    intro b0 T1 T2 _ hr0 _ _ h12
    simpa [bracketLoop, upperBound] using tierValue_mono b0 hr0 h12
  | cons b1 rest ih =>
    intro b0 T1 T2 hchain hr0 hrs hT1 h12
    cases hchain with
    | cons hstep htail =>
      have hr1 : 0 ≤ b1.rate := hrs b1 (List.mem_cons_self b1 rest)
      have hrs' : ∀ b ∈ rest, 0 ≤ b.rate := fun b hb => hrs b (List.mem_cons_of_mem b1 hb)
      rw [upperBound, upperBound, bracketLoop, bracketLoop]
      by_cases h1 : b1.threshold < T1
      · rw [if_pos h1, if_pos (h1.trans_le h12)]
        exact ih b1 T1 T2 htail hr1 hrs' h1 h12
      · rw [if_neg h1]
        by_cases h2 : b1.threshold < T2
        · rw [if_pos h2]
          have hA : tierValue b0 (min T1 b1.threshold) ≤ b1.fixed := by
            rcases hstep with ⟨hlt, heq⟩
            rw [heq, tierValue]
            have hmax : max 0 (min T1 b1.threshold - b0.threshold)
                ≤ b1.threshold - b0.threshold :=
              max_le (sub_nonneg.mpr hlt.le) (sub_le_sub_right (min_le_right _ _) _)
            nlinarith [mul_le_mul_of_nonneg_right hmax hr0]
          exact hA.trans (bracketLoop_ge_fixed rest b1 T2 htail hr1 hrs')
        · rw [if_neg h2]
          exact tierValue_mono b0 hr0 (min_le_min h12 le_rfl)

/-- C5: for a fixed tax model, gross tax is monotone in taxable income:
the flat company model is monotone for any rate in the unit interval,
and the progressive model is monotone for any tier table satisfying the
structural contract of the data model (ascending thresholds, cumulative
fixed bases anchored at 0 for the first tier, rates in the unit
interval). -/
theorem C5_gross_tax_monotone (company_rate T1 T2 : ℚ) (bs : List BracketTier)
    (hcr : 0 ≤ company_rate ∧ company_rate ≤ 1)
    (hrates : ∀ b ∈ bs, 0 ≤ b.rate ∧ b.rate ≤ 1)
    (hchain : bs.Chain' tierStep)
    (hfix : ∀ b, bs.head? = some b → b.fixed = 0)
    (hT1 : 0 ≤ T1) (h12 : T1 ≤ T2) :
    compute_company_tax T1 company_rate ≤ compute_company_tax T2 company_rate ∧
    compute_individual_tax_brackets T1 bs ≤ compute_individual_tax_brackets T2 bs := by
  constructor
  · by_cases h1 : T1 ≤ 0
    · rw [compute_company_tax, if_pos h1]
      by_cases h2 : T2 ≤ 0
      · rw [compute_company_tax, if_pos h2]
      · rw [compute_company_tax, if_neg h2]
        exact round2_nonneg (mul_nonneg (not_le.mp h2).le hcr.1)
    · rw [compute_company_tax, if_neg h1, compute_company_tax,
        if_neg (fun h2 => h1 (h12.trans h2))]
      exact round2_mono (mul_le_mul_of_nonneg_right h12 hcr.1)
  · by_cases h1 : T1 ≤ 0
    · rw [compute_individual_tax_brackets, if_pos h1]
      by_cases h2 : T2 ≤ 0
      · rw [compute_individual_tax_brackets, if_pos h2]
      · rw [compute_individual_tax_brackets, if_neg h2]
        exact round2_nonneg (le_max_left 0 _)
    · rw [compute_individual_tax_brackets, if_neg h1, compute_individual_tax_brackets,
        if_neg (fun h2 => h1 (h12.trans h2))]
      apply round2_mono
      apply max_le_max le_rfl
      cases bs with
      | nil => exact le_rfl
      | cons b rest =>
        have hc : List.Chain tierStep b rest := hchain
        have hrb : 0 ≤ b.rate := (hrates b (List.mem_cons_self b rest)).1
        have hrs' : ∀ x ∈ rest, 0 ≤ x.rate :=
          fun x hx => (hrates x (List.mem_cons_of_mem b hx)).1
        rw [bracketLoop, bracketLoop]
        by_cases hb1 : b.threshold < T1
        · rw [if_pos hb1, if_pos (hb1.trans_le h12)]
          exact bracketLoop_mono rest b T1 T2 hc hrb hrs' hb1 h12
        · rw [if_neg hb1]
          by_cases hb2 : b.threshold < T2
          · rw [if_pos hb2]
            have h0 : b.fixed = 0 := hfix b rfl
            calc (0:ℚ) = b.fixed := h0.symm
              _ ≤ _ := bracketLoop_ge_fixed rest b T2 hc hrb hrs'
          · rw [if_neg hb2]

/-- C5 witness: monotonicity applied to a concrete contract-satisfying
table and the flat model at rate 0.3, for incomes 150 and 250. -/
theorem C5_gross_tax_monotone_witness :
    compute_company_tax 150 (3/10) ≤ compute_company_tax 250 (3/10) ∧
    compute_individual_tax_brackets 150 [⟨0, 0, 0⟩, ⟨100, 1/10, 0⟩, ⟨200, 2/10, 10⟩]
      ≤ compute_individual_tax_brackets 250 [⟨0, 0, 0⟩, ⟨100, 1/10, 0⟩, ⟨200, 2/10, 10⟩] :=
  C5_gross_tax_monotone (3/10) 150 250 [⟨0, 0, 0⟩, ⟨100, 1/10, 0⟩, ⟨200, 2/10, 10⟩]
    ⟨by norm_num, by norm_num⟩
    (by
      intro b hb
      simp only [List.mem_cons, List.mem_singleton, List.not_mem_nil, or_false] at hb
      rcases hb with rfl | rfl | rfl <;> norm_num)
    (by
      refine List.Chain.cons ?_ (List.Chain.cons ?_ List.Chain.nil)
      · constructor <;> norm_num [tierStep]
      · constructor <;> norm_num [tierStep])
    (by intro b hb; cases hb; rfl)
    (by norm_num) (by norm_num)

/-- The sort key used at the load site of the bracket JSON: compare
tiers by threshold. -/
def bracketLE (a b : BracketTier) : Prop := a.threshold ≤ b.threshold

instance : DecidableRel bracketLE :=
  fun a b => inferInstanceAs (Decidable (a.threshold ≤ b.threshold))

instance : IsTotal BracketTier bracketLE :=
  ⟨fun a b => le_total a.threshold b.threshold⟩

instance : IsTrans BracketTier bracketLE :=
  ⟨fun _ _ _ h1 h2 => le_trans h1 h2⟩

/-- individual_brackets (mvp_streamlit_app.py line 230): the caller of
the bracket calculator sorts the supplied tier table ascending by
threshold before use. -/
def individual_brackets (bs : List BracketTier) : List BracketTier :=
  List.insertionSort bracketLE bs

/-- Strict threshold order on tiers. -/
def bracketLT (a b : BracketTier) : Prop := a.threshold < b.threshold

/-- Sorting two orderings of the same tier multiset with pairwise
distinct thresholds yields the same sorted list. -/
theorem individual_brackets_perm_eq (B1 B2 : List BracketTier) (hperm : B1.Perm B2)
    (hnd : (B1.map BracketTier.threshold).Nodup) :
    individual_brackets B1 = individual_brackets B2 := by
  classical
  have p1 : (individual_brackets B1).Perm B1 := List.perm_insertionSort bracketLE B1
  have p2 : (individual_brackets B2).Perm B2 := List.perm_insertionSort bracketLE B2
  have s1 : List.Sorted bracketLE (individual_brackets B1) :=
    List.sorted_insertionSort bracketLE B1
  have s2 : List.Sorted bracketLE (individual_brackets B2) :=
    List.sorted_insertionSort bracketLE B2
  have hnd2 : (B2.map BracketTier.threshold).Nodup :=
    ((hperm.map BracketTier.threshold).nodup_iff).mp hnd
  have hndS1 : ((individual_brackets B1).map BracketTier.threshold).Nodup :=
    ((p1.map BracketTier.threshold).nodup_iff).mpr hnd
  have hndS2 : ((individual_brackets B2).map BracketTier.threshold).Nodup :=
    ((p2.map BracketTier.threshold).nodup_iff).mpr hnd2
  have key : ∀ l : List BracketTier, List.Sorted bracketLE l →
      (l.map BracketTier.threshold).Nodup →
      List.Sorted (fun a b => bracketLT a b ∨ a = b) l := by
    intro l hs hn
    have hne : l.Pairwise (fun a b => a.threshold ≠ b.threshold) :=
      List.pairwise_map.mp hn
    exact (hs.and hne).imp (fun h => Or.inl (lt_of_le_of_ne h.1 h.2))
  haveI : IsAntisymm BracketTier (fun a b => bracketLT a b ∨ a = b) := by
    constructor
    intro a b hab hba
    rcases hab with hab | hab
    · rcases hba with hba | hba
      · exact absurd hba (lt_asymm hab)
      · exact hba.symm
    · exact hab
  exact List.eq_of_perm_of_sorted (p1.trans (hperm.trans p2.symm))
    (key _ s1 hndS1) (key _ s2 hndS2)

/-- C2 counterexample: compute_individual_tax_brackets itself does not
sort the supplied tiers: on the reordered two-tier table
[(4020000, 20 percent, 120000), (0, 0 percent, 0)] an income of 5000000
yields 0, while on the caller-sorted table it yields 316000, so the
calculator is not invariant under reordering of the raw table. -/
theorem C2_counterexample :
    compute_individual_tax_brackets 5000000 [⟨4020000, 2/10, 120000⟩, ⟨0, 0, 0⟩] = 0 ∧
    compute_individual_tax_brackets 5000000
      (individual_brackets [⟨4020000, 2/10, 120000⟩, ⟨0, 0, 0⟩]) = 316000 ∧
    compute_individual_tax_brackets 5000000 [⟨4020000, 2/10, 120000⟩, ⟨0, 0, 0⟩]
      ≠ compute_individual_tax_brackets 5000000
        (individual_brackets [⟨4020000, 2/10, 120000⟩, ⟨0, 0, 0⟩]) := by
  have hsorted : individual_brackets [⟨4020000, 2/10, 120000⟩, ⟨0, 0, 0⟩]
      = [⟨0, 0, 0⟩, ⟨4020000, 2/10, 120000⟩] := by
    norm_num [individual_brackets, List.insertionSort, List.orderedInsert, bracketLE]
  have h1 : compute_individual_tax_brackets 5000000
      [(⟨4020000, 2/10, 120000⟩ : BracketTier), ⟨0, 0, 0⟩] = 0 := by
    have hloop : bracketLoop 5000000 [(⟨4020000, 2/10, 120000⟩ : BracketTier), ⟨0, 0, 0⟩] 0
        = 0 := by
      norm_num [bracketLoop, tierValue, upperBound, min_def, max_def]
    rw [compute_individual_tax_brackets, if_neg (by norm_num), hloop, max_self,
      round2_int _ 0 (by norm_num)]
  have h2 : compute_individual_tax_brackets 5000000
      [(⟨0, 0, 0⟩ : BracketTier), ⟨4020000, 2/10, 120000⟩] = 316000 := by
    have hloop : bracketLoop 5000000 [(⟨0, 0, 0⟩ : BracketTier), ⟨4020000, 2/10, 120000⟩] 0
        = 316000 := by
      norm_num [bracketLoop, tierValue, upperBound, min_def, max_def]
    rw [compute_individual_tax_brackets, if_neg (by norm_num), hloop,
      max_eq_right (by norm_num : (0:ℚ) ≤ 316000), round2_int _ 316000 (by norm_num)]
  refine ⟨h1, by rw [hsorted]; exact h2, ?_⟩
  rw [h1, hsorted, h2]
  norm_num

/-- C2 (amended): the ascending sort happens at the caller (the
individual_brackets load site), not inside the calculator; after that
sort the pipeline is order-insensitive: for any two orderings of the
same tier table with pairwise distinct thresholds, sorting and then
computing gives the same gross tax. -/
theorem C2_sorted_pipeline_order_insensitive (T : ℚ) (B1 B2 : List BracketTier)
    (hperm : B1.Perm B2) (hnd : (B1.map BracketTier.threshold).Nodup) :
    compute_individual_tax_brackets T (individual_brackets B1)
      = compute_individual_tax_brackets T (individual_brackets B2) := by
  rw [individual_brackets_perm_eq B1 B2 hperm hnd]

/-- C2 witness: the order-insensitivity of the sorted pipeline applied
to a concrete two-tier table and its reversal. -/
theorem C2_sorted_pipeline_order_insensitive_witness :
    compute_individual_tax_brackets 50 (individual_brackets [⟨0, 0, 0⟩, ⟨100, 1, 0⟩])
      = compute_individual_tax_brackets 50 (individual_brackets [⟨100, 1, 0⟩, ⟨0, 0, 0⟩]) :=
  C2_sorted_pipeline_order_insensitive 50 [⟨0, 0, 0⟩, ⟨100, 1, 0⟩] [⟨100, 1, 0⟩, ⟨0, 0, 0⟩]
    (List.Perm.swap (⟨100, 1, 0⟩ : BracketTier) ⟨0, 0, 0⟩ [])
    (by norm_num [List.nodup_cons])

/-- ASCII lower-casing of one character, as applied by the
case-insensitive matching (case=False) of the classifier. -/
def lowerChar (c : Char) : Char :=
  if c.isUpper then Char.ofNat (c.toNat + 32) else c

/-- The lower-cased character data of a string. -/
def lowerData (s : String) : List Char := s.data.map lowerChar

/-- Whether the second character list is a prefix of the first. -/
def startsWithL : List Char → List Char → Bool
  | _, [] => true
  | [], _ :: _ => false
  | c :: cs, d :: ds => c == d && startsWithL cs ds

/-- Whether the second character list occurs as a contiguous substring
of the first. -/
def containsSub : List Char → List Char → Bool
  | [], needle => needle.isEmpty
  | c :: cs, needle => startsWithL (c :: cs) needle || containsSub cs needle

/-- Keyword matching of the classifier: pandas str.contains with an
alternation pattern and case=False, i.e. some keyword of the bucket
occurs case-insensitively in the account name. -/
def kwMatch (account : String) (kws : List String) : Bool :=
  kws.any (fun kw => containsSub (lowerData account) kw.data)

/-- Keyword alternation of the revenue bucket
(mvp_streamlit_app.py line 126). -/
def revenue_keywords : List String := ["income", "sales", "revenue"]

/-- Keyword alternation of the cogs bucket (line 127). -/
def cogs_keywords : List String := ["cogs", "cost of goods"]

/-- Keyword alternation of the opex bucket (line 128). -/
def opex_keywords : List String := ["expense", "utilities", "rent", "salary", "transport", "admin"]

/-- Keyword alternation of the other-income bucket (line 129). -/
def other_income_keywords : List String := ["other income", "gain"]

/-- Keyword alternation of the other-expenses bucket (line 130). -/
def other_expenses_keywords : List String := ["other expense", "loss"]

/-- Sum of the amounts of the ledger rows whose account name matches the
keyword set of one bucket. -/
def bucketSum (rows : List (String × ℚ)) (kws : List String) : ℚ :=
  ((rows.filter (fun r => kwMatch r.1 kws)).map Prod.snd).sum

/-- The five canonical profit-and-loss totals. -/
structure PLTotals where
  revenue : ℚ
  cogs : ℚ
  opex : ℚ
  other_income : ℚ
  other_expenses : ℚ

/-- auto_map_pl (mvp_streamlit_app.py lines 115-132), account/amount
mode: the totals taken from explicit columns (zero when such columns
are absent) plus, for each bucket, the sum of every ledger row whose
account name matches that bucket keyword set. -/
def auto_map_pl (base : PLTotals) (rows : List (String × ℚ)) : PLTotals :=
  { revenue := base.revenue + bucketSum rows revenue_keywords
    cogs := base.cogs + bucketSum rows cogs_keywords
    opex := base.opex + bucketSum rows opex_keywords
    other_income := base.other_income + bucketSum rows other_income_keywords
    other_expenses := base.other_expenses + bucketSum rows other_expenses_keywords }

/-- C9: bucket classification is additive and not mutually exclusive: a
ledger row whose account name matches both the revenue and the opex
keyword sets has its amount added to both totals. -/
theorem C9_classifier_additivity (name : String) (amt : ℚ) (rows : List (String × ℚ))
    (base : PLTotals)
    (hrev : kwMatch name revenue_keywords = true)
    (hopex : kwMatch name opex_keywords = true) :
    (auto_map_pl base ((name, amt) :: rows)).revenue
      = (auto_map_pl base rows).revenue + amt ∧
    (auto_map_pl base ((name, amt) :: rows)).opex
      = (auto_map_pl base rows).opex + amt := by
  constructor <;>
    simp [auto_map_pl, bucketSum, List.filter_cons, hrev, hopex] <;> ring

/-- C9 witness: a row named Income and Expense (containing both the
substring income and the substring expense) is counted into both the
revenue total and the opex total. -/
theorem C9_classifier_additivity_witness :
    (auto_map_pl ⟨0, 0, 0, 0, 0⟩ [("Income and Expense", 7)]).revenue
      = (auto_map_pl ⟨0, 0, 0, 0, 0⟩ []).revenue + 7 ∧
    (auto_map_pl ⟨0, 0, 0, 0, 0⟩ [("Income and Expense", 7)]).opex
      = (auto_map_pl ⟨0, 0, 0, 0, 0⟩ []).opex + 7 :=
  C9_classifier_additivity ("Income and Expense") 7 [] ⟨0, 0, 0, 0, 0⟩ (by decide) (by decide)

/-- The three field type tags of the URA form schemas (the strings
str, int, float of URA_SCHEMAS). -/
inductive FType where
  | tstr
  | tint
  | tfloat
deriving DecidableEq, Repr

/-- A Python value as supplied in a return payload: a string, an integer
or a float (modelled as a rational). -/
inductive PyVal where
  | vs (s : String)
  | vi (n : Int)
  | vf (q : ℚ)
deriving DecidableEq, Repr

/-- String rendering used by the str coercion. Rendering of numeric
values is modelled (Python formats floats differently); no verified
property depends on it. -/
def pyStr : PyVal → String
  | .vs s => s
  | .vi n => toString n
  | .vf q => toString q.num ++ "/" ++ toString q.den

/-- Truncation toward zero, the behaviour of int() applied to a float. -/
def ratTrunc (q : ℚ) : ℤ := q.num.tdiv (q.den : ℤ)

/-- Digit-string parse (the core of int() applied to a string). -/
def parseNat? (cs : List Char) : Option ℕ :=
  if cs.isEmpty then none
  else cs.foldl (fun acc c =>
    acc.bind (fun n => if c.isDigit then some (10 * n + (c.toNat - 48)) else none)) (some 0)

/-- int() applied to a string: optional minus sign then digits; any
other character makes the conversion fail (ValueError in the source). -/
def parseInt? (s : String) : Option Int :=
  match s.data with
  | '-' :: rest => (parseNat? rest).map (fun n => -(n : ℤ))
  | cs => (parseNat? cs).map (fun n => (n : ℤ))

/-- float() applied to a string: optional sign, digits, optional
fractional part. Exponent notation of Python is not modelled (no
verified property exercises it); unparsable strings fail as in the
source. -/
def parseFloat? (s : String) : Option ℚ :=
  match s.data.splitOn '.' with
  | [w] => (parseInt? (String.mk w)).map (fun n => (n : ℚ))
  | [w, frac] =>
    match parseInt? (String.mk w), parseNat? frac with
    | some n, some fn =>
      let base : ℚ := (fn : ℚ) / (10 ^ frac.length : ℚ)
      some (if w.head? = some '-' then (n : ℚ) - base else (n : ℚ) + base)
    | _, _ => none
  | _ => none

/-- Type coercion of validate_and_build_return (mvp_streamlit_app.py
lines 203-208): int(val), float(val) or str(val) according to the
declared schema type, failing exactly where the Python conversion
raises. -/
def coerce : FType → PyVal → Option PyVal
  | .tint, .vi n => some (.vi n)
  | .tint, .vf q => some (.vi (ratTrunc q))
  | .tint, .vs s => (parseInt? s).map PyVal.vi
  | .tfloat, .vi n => some (.vf (n : ℚ))
  | .tfloat, .vf q => some (.vf q)
  | .tfloat, .vs s => (parseFloat? s).map PyVal.vf
  | .tstr, v => some (.vs (pyStr v))

/-- Lookup of a field in a payload dict (first match; payload keys are
unique in the source, where the payload is a Python dict). -/
def lookupP (k : String) : List (String × PyVal) → Option PyVal
  | [] => none
  | (k', v) :: rest => if k' = k then some v else lookupP k rest

/-- Field list of form DT-2001 (URA_SCHEMAS, mvp_streamlit_app.py
lines 167-181). -/
def dt2001_fields : List (String × FType) :=
  [("TIN", .tstr), ("Taxpayer Name", .tstr), ("Period", .tstr),
   ("Year", .tint), ("Business Income (UGX)", .tfloat),
   ("Allowable Deductions (UGX)", .tfloat),
   ("Capital Allowances (UGX)", .tfloat),
   ("Exemptions (UGX)", .tfloat),
   ("Taxable Income (UGX)", .tfloat),
   ("Gross Tax (UGX)", .tfloat),
   ("WHT Credits (UGX)", .tfloat),
   ("Foreign Tax Credit (UGX)", .tfloat),
   ("Rebates (UGX)", .tfloat),
   ("Net Tax Payable (UGX)", .tfloat)]

/-- Field list of form DT-2002 (URA_SCHEMAS, mvp_streamlit_app.py
lines 182-193). -/
def dt2002_fields : List (String × FType) :=
  [("TIN", .tstr), ("Entity Name", .tstr), ("Period", .tstr),
   ("Year", .tint), ("Gross Turnover (UGX)", .tfloat),
   ("COGS (UGX)", .tfloat), ("Operating Expenses (UGX)", .tfloat),
   ("Other Income (UGX)", .tfloat), ("Other Expenses (UGX)", .tfloat),
   ("Capital Allowances (UGX)", .tfloat), ("Exemptions (UGX)", .tfloat),
   ("Taxable Income (UGX)", .tfloat), ("Gross Tax (UGX)", .tfloat),
   ("WHT Credits (UGX)", .tfloat), ("Foreign Tax Credit (UGX)", .tfloat),
   ("Rebates (UGX)", .tfloat), ("Net Tax Payable (UGX)", .tfloat)]

/-- URA_SCHEMAS (mvp_streamlit_app.py lines 166-194) as a lookup from
form code to field list. -/
def URA_SCHEMAS (form_code : String) : Option (List (String × FType)) :=
  if form_code = "DT-2001" then some dt2001_fields
  else if form_code = "DT-2002" then some dt2002_fields
  else none

/-- The loop of validate_and_build_return (lines 199-208): walk the
schema fields in order; a missing field raises immediately naming the
field; a present field is coerced (a failing coercion raises naming the
offending value, as the underlying Python conversion does); the output
record collects the coerced values in schema order. -/
def buildFields (payload : List (String × PyVal)) :
    List (String × FType) → Except String (List (String × PyVal))
  | [] => .ok []
  | (f, t) :: rest =>
    match lookupP f payload with
    | none => .error ("Missing required field: " ++ f)
    | some v =>
      match coerce t v with
      | none => .error ("invalid literal: " ++ pyStr v)
      | some c =>
        match buildFields payload rest with
        | .error e => .error e
        | .ok out => .ok ((f, c) :: out)

/-- validate_and_build_return (mvp_streamlit_app.py lines 196-209). -/
def validate_and_build_return (form_code : String) (payload : List (String × PyVal)) :
    Except String (List (String × PyVal)) :=
  match URA_SCHEMAS form_code with
  | none => .error ("Unknown form: " ++ form_code)
  | some fields => buildFields payload fields

/-- The first schema field (in schema order) absent from the payload. -/
def firstMissing (payload : List (String × PyVal)) :
    List (String × FType) → Option String
  | [] => none
  | (f, _) :: rest =>
    if lookupP f payload = none then some f else firstMissing payload rest

/-- A schema field is coercible-if-present in a payload: either absent,
or present with a value that coerces to the declared type. -/
def presentCoercible (payload : List (String × PyVal)) (ft : String × FType) : Bool :=
  match lookupP ft.1 payload with
  | none => true
  | some v => (coerce ft.2 v).isSome

/-- Correspondence between a schema field and an output record entry:
same field name, and the value is the coercion of the payload value. -/
def recMatches (payload : List (String × PyVal)) (ft : String × FType)
    (rv : String × PyVal) : Prop :=
  rv.1 = ft.1 ∧ ∃ v, lookupP ft.1 payload = some v ∧ coerce ft.2 v = some rv.2

/-- Permutations of a payload with unique keys have the same lookup
function (the model of the fact that a Python dict is insertion-order
independent for key access). -/
theorem lookupP_perm {p p' : List (String × PyVal)} (hperm : p.Perm p') :
    (p.map Prod.fst).Nodup → ∀ k, lookupP k p = lookupP k p' := by
  induction hperm with
  | nil => intro _ _; rfl
  | cons x l12 ih =>
    intro hnd k
    obtain ⟨kx, vx⟩ := x
    have htail : _ := (List.nodup_cons.mp hnd).2
    by_cases h : kx = k
    · simp [lookupP, h]
    · simp only [lookupP, if_neg h]
      exact ih htail k
  | swap x y l =>
    intro hnd k
    obtain ⟨kx, vx⟩ := x
    obtain ⟨ky, vy⟩ := y
    have hxy : ky ≠ kx := by
      have := (List.nodup_cons.mp hnd).1
      simp only [List.map_cons, List.mem_cons] at this
      exact fun h => this (Or.inl h)
    by_cases hx : kx = k
    · by_cases hy : ky = k
      · exact absurd (hy.trans hx.symm) hxy
      · simp [lookupP, hx, hy]
    · by_cases hy : ky = k
      · simp [lookupP, hx, hy]
      · simp [lookupP, hx, hy]
  | trans h12 h23 ih12 ih23 =>
    intro hnd k
    have hnd2 := ((h12.map Prod.fst).nodup_iff).mp hnd
    exact (ih12 hnd k).trans (ih23 hnd2 k)

/-- buildFields depends on the payload only through its lookup
function. -/
theorem buildFields_congr (p p' : List (String × PyVal))
    (h : ∀ k, lookupP k p = lookupP k p') :
    ∀ fields : List (String × FType), buildFields p fields = buildFields p' fields := by
  intro fields
  induction fields with
  | nil => rfl
  | cons ft rest ih =>
    obtain ⟨f, t⟩ := ft
    simp only [buildFields, h f, ih]

/-- Helper: a Forall₂ relation that forces equal field names gives equal
name projections. -/
theorem forall2_fst_eq (p : List (String × PyVal)) :
    ∀ (fields : List (String × FType)) (rec : List (String × PyVal)),
      List.Forall₂ (recMatches p) fields rec →
      rec.map Prod.fst = fields.map Prod.fst := by
  intro fields
  induction fields with
  | nil =>
    intro rec h
    cases h
    rfl
  | cons ft rest ih =>
    intro rec h
    cases h with
    | cons hhead htail =>
      simp only [List.map_cons, ih _ htail, hhead.1]

/-- Completeness: a payload that supplies a coercible value for every
schema field builds successfully, producing the record of coerced
values in schema order. -/
theorem buildFields_complete (p : List (String × PyVal)) :
    ∀ fields : List (String × FType),
      (∀ ft ∈ fields, (lookupP ft.1 p).isSome) →
      (∀ ft ∈ fields, presentCoercible p ft = true) →
      ∃ rec, buildFields p fields = .ok rec ∧ List.Forall₂ (recMatches p) fields rec := by
  intro fields
  induction fields with
  | nil => exact fun _ _ => ⟨[], rfl, List.Forall₂.nil⟩
  | cons ft rest ih =>
    intro hpres hco
    obtain ⟨f, t⟩ := ft
    obtain ⟨v, hv⟩ := Option.isSome_iff_exists.mp (hpres (f, t) (List.mem_cons_self _ _))
    have hcv : (coerce t v).isSome := by
      have := hco (f, t) (List.mem_cons_self _ _)
      rw [presentCoercible] at this
      simp only at this
      rw [hv] at this
      exact this
    obtain ⟨c, hc⟩ := Option.isSome_iff_exists.mp hcv
    obtain ⟨recRest, hrec, hfa⟩ :=
      ih (fun x hx => hpres x (List.mem_cons_of_mem _ hx))
        (fun x hx => hco x (List.mem_cons_of_mem _ hx))
    refine ⟨(f, c) :: recRest, ?_, ?_⟩
    · simp only [buildFields, hv, hc, hrec]
    · exact List.Forall₂.cons ⟨rfl, v, hv, hc⟩ hfa

/-- Missing-field behaviour: if some schema field is absent and every
present field coerces, the build fails naming the first missing field
in schema order. -/
theorem buildFields_missing (p : List (String × PyVal)) :
    ∀ (fields : List (String × FType)) (f0 : String),
      firstMissing p fields = some f0 →
      (∀ ft ∈ fields, presentCoercible p ft = true) →
      buildFields p fields = .error ("Missing required field: " ++ f0) := by
  intro fields
  induction fields with
  | nil => intro f0 hmiss _; cases hmiss
  | cons ft rest ih =>
    intro f0 hmiss hco
    obtain ⟨f, t⟩ := ft
    rw [firstMissing] at hmiss
    by_cases h : lookupP f p = none
    · rw [if_pos h] at hmiss
      cases hmiss
      simp only [buildFields, h]
    · rw [if_neg h] at hmiss
      obtain ⟨v, hv⟩ := Option.ne_none_iff_exists.mp h
      have hcv : (coerce t v).isSome := by
        have := hco (f, t) (List.mem_cons_self _ _)
        rw [presentCoercible] at this
        simp only at this
        rw [← hv] at this
        exact this
      obtain ⟨c, hc⟩ := Option.isSome_iff_exists.mp hcv
      have hrest := ih f0 hmiss (fun x hx => hco x (List.mem_cons_of_mem _ hx))
      simp only [buildFields, ← hv, hc, hrest]

/-- C8 (amended): for a registered form code and a payload in which
every supplied schema-field value coerces to its declared type, the
validator builds successfully exactly when all schema fields are
present, producing the record of coerced values in exactly the schema
field order, independently of the payload insertion order; and when
some schema field is missing, it fails naming the first missing field
in schema order. -/
theorem C8_schema_roundtrip (fc : String) (fields : List (String × FType))
    (p p' : List (String × PyVal))
    (hfc : URA_SCHEMAS fc = some fields)
    (hco : ∀ ft ∈ fields, presentCoercible p ft = true)
    (hperm : p.Perm p') (hnd : (p.map Prod.fst).Nodup) :
    ((∀ ft ∈ fields, (lookupP ft.1 p).isSome) →
      ∃ rec, validate_and_build_return fc p = .ok rec ∧
        validate_and_build_return fc p' = .ok rec ∧
        rec.map Prod.fst = fields.map Prod.fst ∧
        List.Forall₂ (recMatches p) fields rec) ∧
    (∀ f0, firstMissing p fields = some f0 →
      validate_and_build_return fc p = .error ("Missing required field: " ++ f0)) := by
  have hval : validate_and_build_return fc p = buildFields p fields := by
    rw [validate_and_build_return, hfc]
  have hval' : validate_and_build_return fc p' = buildFields p fields := by
    rw [validate_and_build_return, hfc]
    exact (buildFields_congr p p' (lookupP_perm hperm hnd) fields).symm
  constructor
  · intro hpres
    obtain ⟨rec, hrec, hfa⟩ := buildFields_complete p fields hpres hco
    exact ⟨rec, hval.trans hrec, hval'.trans hrec, forall2_fst_eq p fields rec hfa, hfa⟩
  · intro f0 hmiss
    rw [hval]
    exact buildFields_missing p fields f0 hmiss hco

/-- Shared tail of the two complete witness payloads (all DT-2001
fields after TIN and the taxpayer name). -/
def payloadTail : List (String × PyVal) :=
  [("Period", .vs ("FY2024")), ("Year", .vi 2024),
   ("Business Income (UGX)", .vf 5000000),
   ("Allowable Deductions (UGX)", .vf 0),
   ("Capital Allowances (UGX)", .vf 0),
   ("Exemptions (UGX)", .vf 0),
   ("Taxable Income (UGX)", .vf 5000000),
   ("Gross Tax (UGX)", .vf 384000),
   ("WHT Credits (UGX)", .vf 0),
   ("Foreign Tax Credit (UGX)", .vf 0),
   ("Rebates (UGX)", .vf 0),
   ("Net Tax Payable (UGX)", .vf 384000)]

/-- A complete well-typed DT-2001 payload, inserted in an order that
differs from the schema order. -/
def payloadA : List (String × PyVal) :=
  ("Taxpayer Name", .vs ("Acme Ltd")) :: ("TIN", .vs ("1001")) :: payloadTail

/-- The same payload with the first two entries inserted in the other
order. -/
def payloadB : List (String × PyVal) :=
  ("TIN", .vs ("1001")) :: ("Taxpayer Name", .vs ("Acme Ltd")) :: payloadTail

/-- A payload that omits the Year field and supplies the rest. -/
def payloadMiss : List (String × PyVal) :=
  [("TIN", .vs ("1001")), ("Taxpayer Name", .vs ("Acme Ltd")), ("Period", .vs ("FY2024")),
   ("Business Income (UGX)", .vf 5000000),
   ("Allowable Deductions (UGX)", .vf 0),
   ("Capital Allowances (UGX)", .vf 0),
   ("Exemptions (UGX)", .vf 0),
   ("Taxable Income (UGX)", .vf 5000000),
   ("Gross Tax (UGX)", .vf 384000),
   ("WHT Credits (UGX)", .vf 0),
   ("Foreign Tax Credit (UGX)", .vf 0),
   ("Rebates (UGX)", .vf 0),
   ("Net Tax Payable (UGX)", .vf 384000)]

/-- C8 witness: the schema theorem applied to a concrete complete
DT-2001 payload, a permutation of it, and a concrete payload missing
the Year field. -/
theorem C8_schema_roundtrip_witness :
    (∃ rec, validate_and_build_return ("DT-2001") payloadA = .ok rec ∧
      validate_and_build_return ("DT-2001") payloadB = .ok rec ∧
      rec.map Prod.fst = dt2001_fields.map Prod.fst ∧
      List.Forall₂ (recMatches payloadA) dt2001_fields rec) ∧
    validate_and_build_return ("DT-2001") payloadMiss
      = .error ("Missing required field: " ++ "Year") :=
  ⟨(C8_schema_roundtrip ("DT-2001") dt2001_fields payloadA payloadB rfl (by decide)
      (List.Perm.swap ("TIN", PyVal.vs ("1001")) ("Taxpayer Name", PyVal.vs ("Acme Ltd"))
        payloadTail)
      (by decide)).1 (by decide),
   (C8_schema_roundtrip ("DT-2001") dt2001_fields payloadMiss payloadMiss rfl (by decide)
      (List.Perm.refl payloadMiss) (by decide)).2 ("Year") (by decide)⟩

/-- A payload for DT-2001 that is missing fields from Business Income
onward, and whose Year value is the unparsable string abc. -/
def payloadCex : List (String × PyVal) :=
  [("TIN", .vs ("x")), ("Taxpayer Name", .vs ("y")), ("Period", .vs ("z")),
   ("Year", .vs ("abc"))]

/-- C8 counterexample: on a payload missing required fields whose Year
value is an unparsable string, the validator fails with the coercion
error for Year (as int() does in the source) rather than with an error
naming the first missing field in schema order, so the missing-field
half of the claim does not hold for every payload. -/
theorem C8_counterexample :
    firstMissing payloadCex dt2001_fields = some ("Business Income (UGX)") ∧
    validate_and_build_return ("DT-2001") payloadCex = .error ("invalid literal: abc") ∧
    ("invalid literal: abc" : String) ≠ "Missing required field: Business Income (UGX)" := by
  refine ⟨by decide, ?_, by decide⟩
  rfl
